import Mathlib

/-!
Verification of the youtube_summarizer orchestration layer: a shallow
embedding of the URL normalizer, prompt composer, schema resolver, model
gateway retry loop, batch orchestrator and preset endpoints, with theorems
settling the frozen claims about them.

Python strings are modelled as Lean String values, operated on through
their underlying character lists.  ASCII-only models of str.strip,
str.lower and str.isalnum are used (the repository only feeds them ASCII
data).  The json module and the filesystem are external collaborators:
parsed JSON documents are modelled by the JsonVal inductive below, and
preset files by an association list from filename stem to parsed content.
-/

set_option maxRecDepth 4000

/-! ## Character and list helpers (models of Python str primitives) -/

/-- Whitespace characters recognised by Python str.strip (ASCII subset). -/
def isPyWs (c : Char) : Bool :=
  c == ' ' || c == '\t' || c == '\n' || c == '\r' || c == '\x0b' || c == '\x0c'

/-- Characters of a YouTube video identifier: ASCII alphanumeric, underscore
or hyphen.  Used only in theorem statements to delimit the accepted forms. -/
def isIdChar (c : Char) : Bool :=
  c.isAlphanum || c == '_' || c == '-'

/-- Model of python str.startswith on character lists. -/
def listStartsWith : List Char → List Char → Bool
  | _, [] => true
  | [], _ :: _ => false
  | c :: l, p :: ps => c == p && listStartsWith l ps

/-- Model of python str.endswith on character lists. -/
def listEndsWith (l suf : List Char) : Bool :=
  listStartsWith l.reverse suf.reverse

/-- Model of python str.strip() on a character list. -/
def pyStripL (l : List Char) : List Char :=
  ((l.dropWhile isPyWs).reverse.dropWhile isPyWs).reverse

/-- Model of python str.strip() on strings. -/
def pyStrip (s : String) : String := String.mk (pyStripL s.data)

/-- Model of python str.startswith on strings. -/
def pyStartsWith (s pre : String) : Bool := listStartsWith s.data pre.data

/-- Model of python str.endswith on strings. -/
def pyEndsWith (s suf : String) : Bool := listEndsWith s.data suf.data

/-! ## urllib model: urlparse components and parse_qs, as used by the code -/

/-- Hex digit value, as urllib percent-decoding reads it (by code point:
decimal digits, then the lowercase and uppercase letter ranges). -/
def hexVal (c : Char) : Option Nat :=
  let n := c.toNat
  if 48 ≤ n && n ≤ 57 then some (n - 48)
  else if 97 ≤ n && n ≤ 102 then some (n - 87)
  else if 65 ≤ n && n ≤ 70 then some (n - 55)
  else none

/-- Percent-decoding of a query component (ASCII byte model of
urllib.parse.unquote; invalid escapes are kept literally). -/
def pctDecode : List Char → List Char
  | [] => []
  | '%' :: a :: b :: rest =>
    match hexVal a, hexVal b with
    | some x, some y =>
      if x * 16 + y < 128 then Char.ofNat (x * 16 + y) :: pctDecode rest
      else '%' :: a :: b :: pctDecode rest
    | _, _ => '%' :: pctDecode (a :: b :: rest)
  | c :: rest => c :: pctDecode rest

/-- Model of urllib.parse.unquote_plus on a query component. -/
def unquotePlus (l : List Char) : List Char :=
  pctDecode (l.map fun c => if c == '+' then ' ' else c)

/-- Split a character list on every occurrence of a separator character,
like python str.split(sep). -/
def splitOnCharAux (sep : Char) : List Char → List Char → List (List Char)
  | [], acc => [acc.reverse]
  | c :: rest, acc =>
    if c == sep then acc.reverse :: splitOnCharAux sep rest []
    else splitOnCharAux sep rest (c :: acc)

/-- Split on a separator character (python str.split(sep)). -/
def splitOnChar (sep : Char) (l : List Char) : List (List Char) :=
  splitOnCharAux sep l []

/-- Split a chunk at its first equals sign, like name_value.split(chr 61, 1)
inside urllib.parse.parse_qsl; none when the chunk has no equals sign. -/
def splitFirstEq : List Char → Option (List Char × List Char)
  | [] => none
  | c :: rest =>
    if c == '=' then some ([], rest)
    else
      match splitFirstEq rest with
      | some (k, v) => some (c :: k, v)
      | none => none

/-- Model of urllib.parse.parse_qsl with default options: empty chunks are
skipped, chunks without an equals sign are skipped, empty values are dropped
(keep_blank_values is false), names and values are unquote_plus-decoded. -/
def qsPairs (q : List Char) : List (List Char × List Char) :=
  (splitOnChar '&' q).filterMap fun chunk =>
    if chunk.isEmpty then none
    else
      match splitFirstEq chunk with
      | some (n, v) => if v.isEmpty then none else some (unquotePlus n, unquotePlus v)
      | none => none

/-- Model of parse_qs(query).get(v-key, list-of-empty)[0]: the first value
recorded for key v, or the empty string when the key is absent. -/
def qsGetV (q : List Char) : List Char :=
  match (qsPairs q).find? (fun p => p.1 == ['v']) with
  | some p => p.2
  | none => []

/-- Characters ending the netloc component in urlparse. -/
def isNetEnd (c : Char) : Bool := c == '/' || c == '?' || c == '#'

/-- The url with its http or https scheme prefix removed (the code only
parses urls that start with one of the two). -/
def schemeRest (l : List Char) : List Char :=
  if listStartsWith l ("https://".data) then l.drop 8
  else if listStartsWith l ("http://".data) then l.drop 7
  else l

/-- urlparse netloc: everything after the scheme up to a slash, question
mark or hash. -/
def netlocOf (l : List Char) : List Char :=
  (schemeRest l).takeWhile (fun c => !(isNetEnd c))

/-- The remainder of the url after the netloc. -/
def afterNetloc (l : List Char) : List Char :=
  (schemeRest l).dropWhile (fun c => !(isNetEnd c))

/-- urlparse path: the part after the netloc, before any query or fragment. -/
def pathOf (l : List Char) : List Char :=
  ((afterNetloc l).takeWhile (fun c => !(c == '#'))).takeWhile (fun c => !(c == '?'))

/-- urlparse query: the part between the first question mark after the
netloc and any fragment. -/
def queryOf (l : List Char) : List Char :=
  (((afterNetloc l).takeWhile (fun c => !(c == '#'))).dropWhile (fun c => !(c == '?'))).drop 1

/-! ## URL Normalizer (cli.normalize_video_url and cli.extract_video_id;
webapp.normalize_video_url is character-for-character the same function) -/

/-- Character-list body of normalize_video_url, translated clause by clause
from the source. -/
def normalizeL (value : List Char) : List Char :=
  let raw := pyStripL value
  if raw.isEmpty then []
  else if listStartsWith raw ("http://".data) || listStartsWith raw ("https://".data) then
    let netloc := netlocOf raw
    if netloc == ("youtu.be".data) || netloc == ("www.youtu.be".data) then
      ("https://www.youtube.com/watch?v=".data) ++ (pathOf raw).dropWhile (fun c => c == '/')
    else if netloc == ("www.youtube.com".data) || netloc == ("youtube.com".data) then
      let vid := qsGetV (queryOf raw)
      if vid.isEmpty then raw
      else ("https://www.youtube.com/watch?v=".data) ++ vid
    else raw
  else ("https://www.youtube.com/watch?v=".data) ++ raw

/-- normalize_video_url from cli.py (duplicated verbatim in webapp.py). -/
def normalize_video_url (s : String) : String := String.mk (normalizeL s.data)

/-- Character-list body of extract_video_id, translated clause by clause
from the source. -/
def extractIdL (value : List Char) : List Char :=
  let raw := pyStripL value
  if raw.isEmpty then []
  else if listStartsWith raw ("http://".data) || listStartsWith raw ("https://".data) then
    let netloc := netlocOf raw
    if netloc == ("youtu.be".data) || netloc == ("www.youtu.be".data) then
      (pathOf raw).dropWhile (fun c => c == '/')
    else if netloc == ("www.youtube.com".data) || netloc == ("youtube.com".data) then
      qsGetV (queryOf raw)
    else raw
  else raw

/-- extract_video_id from cli.py. -/
def extract_video_id (s : String) : String := String.mk (extractIdL s.data)

example : normalize_video_url ("dQw4w9WgXcQ") = "https://www.youtube.com/watch?v=dQw4w9WgXcQ" := by decide
example : normalize_video_url ("https://youtu.be/dQw4w9WgXcQ") = "https://www.youtube.com/watch?v=dQw4w9WgXcQ" := by decide
example : normalize_video_url ("https://www.youtube.com/watch?v=dQw4w9WgXcQ") = "https://www.youtube.com/watch?v=dQw4w9WgXcQ" := by decide
example : normalize_video_url ("https://www.youtube.com/watch?v=dQw4w9WgXcQ") = normalize_video_url (normalize_video_url ("dQw4w9WgXcQ")) := by decide
example : extract_video_id ("https://youtu.be/dQw4w9WgXcQ") = "dQw4w9WgXcQ" := by decide
example : normalize_video_url ("  ") = "" := by decide
example : normalize_video_url ("https://example.com/x") = "https://example.com/x" := by decide
example : normalize_video_url ("https://www.youtube.com/playlist?list=abc") = "https://www.youtube.com/playlist?list=abc" := by decide

/-! ## Prompt templates (prompts.py, presets.py) -/

/-- SHARED_VIDEO_PROMPT from prompts.py, byte for byte (the triple-quoted
literal starts right after the opening quotes and ends with a newline). -/
def SHARED_VIDEO_PROMPT : String :=
  "You are extracting structured startup case-study facts from a YouTube video.\n\nHARD RULES:\n- Only extract facts that are explicitly stated or shown in the video.\n- Do NOT infer numbers (revenue, users, spend, funding, etc.). If not stated, set the field to null and add it to missing_info.\n- If a figure is approximate (\"~\", \"about\", \"around\"), keep it and mark confidence=\"medium\".\n- If a figure is unclear/ambiguous, set value=null and explain in notes + missing_info.\n- Success/failure classification:\n  - \"success\" only if the video clearly claims meaningful success (e.g., profitable, significant revenue/users, acquisition, strong growth).\n- \"failure\" only if the video clearly states it failed, shut down, ran out of money, or could not find product-market fit.\n  - Otherwise use \"mixed\" or \"unknown\" with explanation.\n- Competitors: only include competitors explicitly mentioned.\n\nEVIDENCE:\n- For every important claim (metrics, success/failure, competitors, key decisions), include at least one evidence item with a timestamp MM:SS and a short snippet (<= 20 words).\n- If you cannot reliably provide timestamps, use \"N/A\" and note why in limitations.\n\nOUTPUT:\n- Return ONLY valid JSON matching the provided schema.\n"

/-- DEFAULT_PROMPT from presets.py. -/
def DEFAULT_PROMPT : String :=
  "Summarize the YouTube video. Return a short summary and a list of keywords."

/-- The metadata record interpolated into every prompt (VideoMetadata). -/
structure VideoMeta where
  video_url : String := ""
  title : String := ""
  channel : String := ""
  upload_date : String := ""
deriving DecidableEq

/-- The metadata section shared by both prompt renderers: the f-string part
between the template and the closing instruction. -/
def metaBlock (meta : VideoMeta) : String :=
  "\n\nVIDEO METADATA (use exactly):\n- video_url: " ++ meta.video_url
    ++ "\n- title: " ++ meta.title
    ++ "\n- channel: " ++ meta.channel
    ++ "\n- upload_date: " ++ meta.upload_date

/-- Closing line appended by cli.main render_prompt and webapp.build_prompt. -/
def genericClosing : String :=
  "\n\nReturn ONLY valid JSON that matches the provided schema.\n"

/-- Closing block appended by the module-level cli.build_prompt (the strict
extraction directives). -/
def strictClosing : String :=
  "\n\nNow extract:\n- who the person is (if stated)\n- what they built (products)\n- success/failure/mixed/unknown with reasons\n- metrics (spend/revenue/users/etc) ONLY if explicitly stated\n- competitors ONLY if explicitly stated\n- missing_info list of important fields NOT provided\n"

/-- build_prompt from cli.py lines 19-35 (module level; not called by main). -/
def build_prompt (meta : VideoMeta) : String :=
  SHARED_VIDEO_PROMPT ++ metaBlock meta ++ strictClosing

/-- render_prompt, the closure defined inside cli.main (lines 147-157). -/
def render_prompt (prompt_template : String) (meta : VideoMeta) : String :=
  prompt_template ++ metaBlock meta ++ genericClosing

/-- build_prompt from webapp.py lines 57-67: identical rendering with the
caller-supplied base prompt, no trimming, generic closing line. -/
def webapp_build_prompt (base_prompt : String) (meta : VideoMeta) : String :=
  base_prompt ++ metaBlock meta ++ genericClosing

/-- Python truthiness of an optional string (None and the empty string are
falsy), as used by the elif chain in cli.main. -/
def orTruthy (o : Option String) (fallback : String) : String :=
  match o with
  | some s => if s = "" then fallback else s
  | none => fallback

/-- Base prompt selection from cli.main lines 136-143: the prompt-file
content is taken first, then a truthy --prompt value, then a truthy preset
prompt, then DEFAULT_PROMPT.  promptFileContent is the content of the file
named by a supplied --prompt-file option. -/
def resolve_base_prompt (promptFileContent promptArg presetPrompt : Option String) : String :=
  match promptFileContent with
  | some content => content
  | none => orTruthy promptArg (orTruthy presetPrompt DEFAULT_PROMPT)

/-- Lines 144-145 of cli.main: the selected base prompt is stripped, then
compared against SHARED_VIDEO_PROMPT to pick the template. -/
def effective_template (promptFileContent promptArg presetPrompt : Option String) : String :=
  let base_prompt := pyStrip (resolve_base_prompt promptFileContent promptArg presetPrompt)
  if base_prompt = SHARED_VIDEO_PROMPT then SHARED_VIDEO_PROMPT else base_prompt

/-- The full prompt cli.main sends for one video: template resolution
followed by render_prompt. -/
def composed_prompt (promptFileContent promptArg presetPrompt : Option String)
    (meta : VideoMeta) : String :=
  render_prompt (effective_template promptFileContent promptArg presetPrompt) meta

/-! ## JSON documents and the Schema Resolver (cli.main lines 117-134) -/

/-- Parsed JSON documents, as handed around between json.loads, preset
files and the web endpoints.  Numbers are restricted to integers; no number
appears in any document this repository builds. -/
inductive JsonVal where
  | null
  | bool (b : Bool)
  | num (n : Int)
  | str (s : String)
  | arr (items : List JsonVal)
  | obj (fields : List (String × JsonVal))
deriving BEq

/-- Python truthiness of a parsed JSON value, as used by the or-fallback in
cli.main line 130. -/
def jsonTruthy : JsonVal → Bool
  | .null => false
  | .bool b => b
  | .num n => n != 0
  | .str s => s ≠ ""
  | .arr items => !items.isEmpty
  | .obj fields => !fields.isEmpty

/-- Dictionary lookup payload.get(key) on a parsed JSON object; none when
the value is not an object or the key is absent. -/
def jsonGet (v : JsonVal) (key : String) : Option JsonVal :=
  match v with
  | .obj fields => (fields.find? (fun f => f.1 == key)).map (fun f => f.2)
  | _ => none

/-- Membership test isinstance(payload, dict) and key in payload. -/
def isObjWithKey (v : JsonVal) (key : String) : Bool :=
  match v with
  | .obj fields => fields.any (fun f => f.1 == key)
  | _ => false

/-- isinstance(v, dict). -/
def isJsonObj : JsonVal → Bool
  | .obj _ => true
  | _ => false

/-- The hardcoded fallback schema of cli.main lines 130-134: an object with
a required string summary and a required string-array keyword. -/
def FALLBACK_SCHEMA : JsonVal :=
  .obj [("type", .str "object"),
        ("properties", .obj
          [("summary", .obj [("type", .str "string")]),
           ("keyword", .obj [("type", .str "array"),
                             ("items", .obj [("type", .str "string")])])]),
        ("required", .arr [.str "summary", .str "keyword"])]

/-- Schema and preset-prompt resolution from cli.main lines 117-134.
schemaJson is the parsed inline --schema-json document when that option is
supplied, schemaFile the parsed content of a supplied --schema file, and
preset the result of load_preset_safe for the default preset (none models
both a missing file and a malformed one, which load_preset_safe swallows).
Returns the resolved schema and the preset_prompt variable. -/
def resolve_schema (schemaJson schemaFile preset : Option JsonVal) :
    JsonVal × Option JsonVal :=
  match schemaJson with
  | some v => (v, none)
  | none =>
    match schemaFile with
    | some payload =>
      if isObjWithKey payload ("schema") then
        ((jsonGet payload ("schema")).getD .null, jsonGet payload ("prompt"))
      else (payload, none)
    | none =>
      let p := preset.getD (.obj [])
      let presetPrompt := jsonGet p ("prompt")
      let schema :=
        match jsonGet p ("schema") with
        | some s => if jsonTruthy s then s else FALLBACK_SCHEMA
        | none => FALLBACK_SCHEMA
      (schema, presetPrompt)

/-! ## Model Gateway (gemini.py) -/

/-- backoff_sleep from gemini.py lines 26-29: the slept delay as a function
of the attempt index and of the uniform sample u drawn by random.random()
(u lies in the interval from 0 inclusive to 1 exclusive).  Arithmetic is
modelled over the rationals. -/
def backoff_delay (attempt : Nat) (base cap u : ℚ) : ℚ :=
  (min cap (base * 2 ^ attempt)) * (7 / 10 + u * (6 / 10))

/-- Outcome of gemini_json: the response text, or the terminal RuntimeError
wrapping the last underlying error (none when max_retries was zero and no
call was ever made). -/
inductive GeminiOutcome (E A : Type) where
  | ok (a : A)
  | failed (lastErr : Option E)
deriving DecidableEq

/-- Retry loop of gemini_json (gemini.py lines 46-55) over an abstract
underlying call: call k is the outcome generate_content would produce on
attempt number k.  Returns the outcome together with the number of
attempts actually made.  The recursion follows the for-loop: remaining
iterations, current attempt index, last error seen. -/
def geminiGo (call : Nat → Except E A) : Nat → Nat → Option E → GeminiOutcome E A × Nat
  | 0, _, lastErr => (.failed lastErr, 0)
  | remaining + 1, attempt, _ =>
    match call attempt with
    | .ok a => (.ok a, 1)
    | .error e =>
      let p := geminiGo call remaining (attempt + 1) (some e)
      (p.1, p.2 + 1)

/-- gemini_json from gemini.py: up to max_retries attempts starting at
attempt 0 with no last error recorded. -/
def gemini_json_run (call : Nat → Except E A) (max_retries : Nat) :
    GeminiOutcome E A × Nat :=
  geminiGo call max_retries 0 none

/-- The default max_retries of gemini_json. -/
def MAX_RETRIES_DEFAULT : Nat := 6

/-! ## Batch Orchestrator (cli.main lines 106-189) -/

/-- The command-line arguments main consumes, after parsing.  input_file
stands for a supplied --input-file option together with the splitlines of
the file it names; out defaults to the stdout sentinel. -/
structure CliArgs where
  video_url : Option String := none
  input_file : Option (List String) := none
  title : String := ""
  channel : String := ""
  upload_date : String := ""
  out : String := "-"
  outdir : Option String := none
deriving DecidableEq

/-- load_inputs from cli.py lines 87-94: stripped, non-empty, non-comment
lines of the input file, or the single positional url, or nothing. -/
def load_inputs (a : CliArgs) : List String :=
  match a.input_file with
  | some lines =>
    (lines.map pyStrip).filter (fun l => l ≠ "" && !(pyStartsWith l ("#")))
  | none =>
    match a.video_url with
    | some u => [u]
    | none => []

/-- Observable effects of one run of main: a model call for a video url, a
file written, or a result printed to stdout.  The progress indicator on the
diagnostic stream carries no result and is not recorded. -/
inductive Event where
  | gwCall (video_url : String)
  | fileWrite (path : String) (content : String)
  | stdout (content : String)
deriving DecidableEq

/-- video_id selection in the loop body (cli.py line 172): the extracted id,
or the positional placeholder when extraction yields an empty string. -/
def video_id_for (url : String) (idx : Nat) : String :=
  let e := extract_video_id url
  if e = "" then "video_" ++ toString idx else e

/-- The per-item loop of cli.main lines 164-189 over an abstract gateway
(gw url is the payload summarize_custom returns for that video).  Mirrors
the three sinks: per-video file in outdir, stdout, or the single --out path
followed by break. -/
def batch_events (gw : String → String) (a : CliArgs) :
    List String → Nat → List Event
  | [], _ => []
  | raw :: rest, idx =>
    let url := normalize_video_url raw
    let vid := video_id_for url idx
    let payload := gw url
    match a.outdir with
    | some d =>
      .gwCall url :: .fileWrite (d ++ "/" ++ vid ++ ".json") payload
        :: batch_events gw a rest (idx + 1)
    | none =>
      if a.out = "-" then
        .gwCall url :: .stdout payload :: batch_events gw a rest (idx + 1)
      else
        [.gwCall url, .fileWrite a.out payload]

/-- Result of one invocation of cli.main: a SystemExit with its message, or
a completed run with its observable events. -/
inductive RunResult where
  | exit (msg : String)
  | done (events : List Event)
deriving DecidableEq

/-- cli.main lines 106-189: the two fail-fast checks, then the batch loop
(client construction and schema resolution produce no recorded events). -/
def main_run (gw : String → String) (a : CliArgs) : RunResult :=
  let inputs := load_inputs a
  if inputs.isEmpty then .exit ("Provide a video URL/ID or --input-file.")
  else if a.input_file.isSome && a.outdir.isNone && a.out = "-" then
    .exit ("Batch mode requires --outdir to write results per video.")
  else .done (batch_events gw a inputs 1)

/-- Number of model-gateway invocations a run performed. -/
def gw_calls : RunResult → Nat
  | .exit _ => 0
  | .done events =>
    (events.filter fun e => match e with | .gwCall _ => true | _ => false).length

/-- Number of output files a run wrote. -/
def files_written : RunResult → Nat
  | .exit _ => 0
  | .done events =>
    (events.filter fun e => match e with | .fileWrite _ _ => true | _ => false).length

/-! ## Web endpoints (webapp.py) -/

/-- Outcome of one request handler: a JSONResponse with its status code and
body, or an exception that escapes the handler (which the framework, not
the handler, turns into a 500). -/
inductive ApiOutcome where
  | resp (status : Nat) (body : JsonVal)
  | unhandled (err : String)
deriving BEq

/-- Whether an outcome is a structured JSON response. -/
def isStructuredResp : ApiOutcome → Bool
  | .resp _ _ => true
  | .unhandled _ => false

/-- Request body of POST /api/summarize, after the handler has applied its
payload.get defaults (lines 176-179). -/
structure SummarizePayload where
  video_input : String := ""
  prompt : String := SHARED_VIDEO_PROMPT
  schema : Option JsonVal := none
  model : String := "gemini-3-flash-preview"
deriving BEq

/-- Handler result together with the number of model calls it made. -/
structure ApiCall where
  result : ApiOutcome
  gwCalls : Nat
deriving BEq

/-- summarize_api from webapp.py lines 174-199 over an abstract gateway
outcome (gw is what summarize_custom does when reached: returns raw text or
raises) and an abstract json.loads on the raw text (none models a
JSONDecodeError).  The schema check precedes the video check; the gateway
call sits outside any try block, so a raised error escapes the handler;
only json.loads is guarded, producing the 502 with the raw text. -/
def summarize_api (jloads : String → Option JsonVal) (gw : Except String String)
    (p : SummarizePayload) : ApiCall :=
  if !(isJsonObj (p.schema.getD .null)) then
    ⟨.resp 400 (.obj [("error", .str "schema must be a JSON object")]), 0⟩
  else
    let video_url := normalize_video_url (pyStrip p.video_input)
    if video_url = "" then
      ⟨.resp 400 (.obj [("error", .str "Provide a YouTube URL or video id.")]), 0⟩
    else
      match gw with
      | .error e => ⟨.unhandled e, 1⟩
      | .ok raw =>
        match jloads raw with
        | none =>
          ⟨.resp 502 (.obj [("error", .str "Model returned invalid JSON"),
                            ("raw", .str raw)]), 1⟩
        | some parsed => ⟨.resp 200 parsed, 1⟩

/-! ## Presets (presets.py, webapp.py preset endpoints) -/

/-- sanitize_preset_id from presets.py line 48-50: strip, lowercase, spaces
to underscores, keep only alphanumerics, underscore and hyphen (ASCII
model of str.lower and str.isalnum). -/
def sanitize_preset_id (value : String) : String :=
  String.mk ((((pyStripL value.data).map Char.toLower).map
    (fun c => if c == ' ' then '_' else c)).filter
    (fun c => c.isAlphanum || c == '_' || c == '-'))

/-- The preset directory on disk: one parsed JSON document per filename
stem.  json.dumps followed by json.loads of a document is the identity, so
file contents are modelled by their parsed values. -/
def PresetStore := List (String × JsonVal)

/-- save_preset from presets.py lines 42-45: write (overwrite) the file for
the identifier. -/
def save_preset (store : PresetStore) (preset_id : String) (payload : JsonVal) :
    PresetStore :=
  (preset_id, payload) :: store.filter (fun e => !(e.1 == preset_id))

/-- load_preset from presets.py lines 28-32: read the file for the
identifier; none models the FileNotFoundError path. -/
def load_preset (store : PresetStore) (preset_id : String) : Option JsonVal :=
  (store.find? (fun e => e.1 == preset_id)).map (fun e => e.2)

/-- Result of POST /api/presets: the response and the preset directory
after the request. -/
structure SaveOutcome where
  response : ApiOutcome
  store : PresetStore

/-- presets_save from webapp.py lines 239-257: validations in source order,
then sanitization, then save_preset of the name, prompt, schema record. -/
def presets_save (store : PresetStore) (name : String)
    (prompt schema : Option JsonVal) : SaveOutcome :=
  let n := pyStrip name
  if n = "" then
    ⟨.resp 400 (.obj [("error", .str "Preset name is required.")]), store⟩
  else if !(isJsonObj (schema.getD .null)) then
    ⟨.resp 400 (.obj [("error", .str "Schema must be a JSON object.")]), store⟩
  else
    match prompt with
    | some (.str promptText) =>
      let preset_id := sanitize_preset_id n
      if preset_id = "" then
        ⟨.resp 400 (.obj [("error", .str "Preset name has no valid characters.")]), store⟩
      else
        ⟨.resp 200 (.obj [("id", .str preset_id), ("name", .str n)]),
         save_preset store preset_id
           (.obj [("name", .str n), ("prompt", .str promptText),
                  ("schema", schema.getD .null)])⟩
    | _ => ⟨.resp 400 (.obj [("error", .str "Prompt must be a string.")]), store⟩

/-- presets_get from webapp.py lines 229-236: sanitize the path parameter,
load, 404 when absent. -/
def presets_get (store : PresetStore) (preset_id : String) : ApiOutcome :=
  let safe_id := sanitize_preset_id preset_id
  match load_preset store safe_id with
  | none => .resp 404 (.obj [("error", .str "Preset not found.")])
  | some preset => .resp 200 preset

/-! ## Helper lemmas about the string primitives -/

theorem listStartsWith_append (p t : List Char) :
    listStartsWith (p ++ t) p = true := by
  induction p with
  | nil => cases t <;> rfl
  | cons c ps ih => simp [listStartsWith, ih]

theorem listStartsWith_iff_append (l p : List Char) :
    listStartsWith l p = true ↔ ∃ t, l = p ++ t := by
  induction p generalizing l with
  | nil =>
    constructor
    · intro _; exact ⟨l, rfl⟩
    · intro _; cases l <;> rfl
  | cons c ps ih =>
    cases l with
    | nil =>
      simp only [listStartsWith]
      constructor
      · intro h; cases h
      · rintro ⟨t, ht⟩; cases ht
    | cons d ds =>
      simp only [listStartsWith, Bool.and_eq_true, beq_iff_eq, ih]
      constructor
      · rintro ⟨rfl, t, rfl⟩; exact ⟨t, rfl⟩
      · rintro ⟨t, ht⟩
        injection ht with h1 h2
        exact ⟨h1, t, h2⟩

theorem listEndsWith_append (l s : List Char) :
    listEndsWith (l ++ s) s = true := by
  unfold listEndsWith
  rw [List.reverse_append]
  exact listStartsWith_append s.reverse l.reverse

theorem dropWhile_all_neg (p : Char → Bool) (l : List Char)
    (h : ∀ c ∈ l, p c = false) : l.dropWhile p = l := by
  cases l with
  | nil => rfl
  | cons c rest =>
    rw [List.dropWhile_cons, h c (List.mem_cons_self c rest)]
    simp

theorem takeWhile_all_pos (p : Char → Bool) (l : List Char)
    (h : ∀ c ∈ l, p c = true) : l.takeWhile p = l := by
  induction l with
  | nil => rfl
  | cons c rest ih =>
    rw [List.takeWhile_cons, h c (List.mem_cons_self c rest)]
    simp only [if_true]
    exact congrArg (c :: ·) (ih fun d hd => h d (List.mem_cons_of_mem c hd))

theorem pyStripL_all_not_ws (l : List Char) (h : ∀ c ∈ l, isPyWs c = false) :
    pyStripL l = l := by
  unfold pyStripL
  rw [dropWhile_all_neg _ _ h,
      dropWhile_all_neg _ _ (fun c hc => h c (List.mem_reverse.mp hc)),
      List.reverse_reverse]

theorem takeWhile_append_all (p : Char → Bool) (xs ys : List Char)
    (h : ∀ c ∈ xs, p c = true) :
    (xs ++ ys).takeWhile p = xs ++ ys.takeWhile p := by
  induction xs with
  | nil => rfl
  | cons c rest ih =>
    rw [List.cons_append, List.takeWhile_cons, h c (List.mem_cons_self c rest)]
    simp only [if_true, List.cons_append]
    exact congrArg (c :: ·) (ih fun d hd => h d (List.mem_cons_of_mem c hd))

theorem splitOnCharAux_no_sep (sep : Char) (l acc : List Char)
    (h : ∀ c ∈ l, (c == sep) = false) :
    splitOnCharAux sep l acc = [acc.reverse ++ l] := by
  induction l generalizing acc with
  | nil => simp [splitOnCharAux]
  | cons c rest ih =>
    rw [splitOnCharAux, if_neg]
    · rw [ih (c :: acc) (fun d hd => h d (List.mem_cons_of_mem c hd))]
      simp
    · intro hc
      have := h c (List.mem_cons_self c rest)
      rw [hc] at this
      cases this

theorem pctDecode_cons_ne (c : Char) (rest : List Char) (hc : ¬(c = '%')) :
    pctDecode (c :: rest) = c :: pctDecode rest := by
  rw [pctDecode.eq_def]
  split
  · rename_i h; cases h
  · rename_i h; exfalso; injection h with h1 _; exact hc h1
  · rename_i h
    injection h with h1 h2
    rw [h1, h2]

theorem pctDecode_no_pct (l : List Char) (h : ∀ c ∈ l, (c == '%') = false) :
    pctDecode l = l := by
  induction l with
  | nil => rfl
  | cons c rest ih =>
    have hc : ¬(c = '%') := by
      intro hc
      have hcp := h c (List.mem_cons_self c rest)
      rw [hc] at hcp
      simp at hcp
    rw [pctDecode_cons_ne c rest hc, ih fun d hd => h d (List.mem_cons_of_mem c hd)]

theorem idChar_ne (c x : Char) (h : isIdChar c = true) (hx : isIdChar x = false) :
    (c == x) = false := by
  rcases Bool.eq_false_or_eq_true (c == x) with hb | hb
  · exfalso
    rw [beq_iff_eq] at hb
    rw [hb, hx] at h
    cases h
  · exact hb

theorem map_noplus_id (l : List Char) (h : ∀ c ∈ l, (c == '+') = false) :
    (l.map fun c => if c == '+' then ' ' else c) = l := by
  induction l with
  | nil => rfl
  | cons c rest ih =>
    rw [List.map_cons, h c (List.mem_cons_self c rest)]
    simp only [Bool.false_eq_true, if_false]
    rw [ih fun d hd => h d (List.mem_cons_of_mem c hd)]

theorem unquotePlus_id (l : List Char) (h : ∀ c ∈ l, isIdChar c = true) :
    unquotePlus l = l := by
  unfold unquotePlus
  rw [map_noplus_id l fun c hc => idChar_ne c '+' (h c hc) (by decide)]
  exact pctDecode_no_pct l fun c hc => idChar_ne c '%' (h c hc) (by decide)

theorem idChar_not_ws (c : Char) (h : isIdChar c = true) : isPyWs c = false := by
  unfold isPyWs
  rw [idChar_ne c ' ' h (by decide), idChar_ne c '\t' h (by decide),
      idChar_ne c '\n' h (by decide), idChar_ne c '\r' h (by decide),
      idChar_ne c '\x0b' h (by decide), idChar_ne c '\x0c' h (by decide)]
  rfl

theorem not_starts_of_bad_char (l p : List Char) (x : Char) (hx : x ∈ p)
    (hl : ∀ c ∈ l, isIdChar c = true) (hxbad : isIdChar x = false) :
    listStartsWith l p = false := by
  rcases Bool.eq_false_or_eq_true (listStartsWith l p) with hb | hb
  · exfalso
    obtain ⟨t, rfl⟩ := (listStartsWith_iff_append _ _).mp hb
    have hxl := hl x (List.mem_append_left t hx)
    rw [hxbad] at hxl
    cases hxl
  · exact hb

theorem qsGetV_v_eq (id : List Char) (hne : id ≠ [])
    (hv : ∀ c ∈ id, isIdChar c = true) :
    qsGetV ('v' :: '=' :: id) = id := by
  have hnosep : ∀ c ∈ ('v' :: '=' :: id), (c == '&') = false := by
    intro c hc
    rcases List.mem_cons.mp hc with rfl | hc
    · decide
    rcases List.mem_cons.mp hc with rfl | hc
    · decide
    · exact idChar_ne c '&' (hv c hc) (by decide)
  have hsplit : splitOnChar '&' ('v' :: '=' :: id) = [('v' :: '=' :: id)] := by
    unfold splitOnChar
    rw [splitOnCharAux_no_sep _ _ _ hnosep]
    rfl
  have hemp : id.isEmpty = false := by
    cases id with
    | nil => exact absurd rfl hne
    | cons c t => rfl
  unfold qsGetV qsPairs
  rw [hsplit]
  rw [List.filterMap_cons, List.filterMap_nil]
  have hfe : splitFirstEq ('v' :: '=' :: id) = some (['v'], id) := rfl
  simp only [List.isEmpty_cons, hfe, hemp, unquotePlus_id id hv,
    show unquotePlus ['v'] = ['v'] from rfl, Bool.false_eq_true, if_false]
  simp [List.find?]

/-- Abbreviation for the canonical watch-url base, character level. -/
def watchBase : List Char := "https://www.youtube.com/watch?v=".data

theorem normalizeL_bare (id : List Char) (hne : id ≠ [])
    (hv : ∀ c ∈ id, isIdChar c = true) :
    normalizeL id = watchBase ++ id := by
  have hstrip : pyStripL id = id :=
    pyStripL_all_not_ws id fun c hc => idChar_not_ws c (hv c hc)
  have hemp : id.isEmpty = false := by
    cases id with
    | nil => exact absurd rfl hne
    | cons c t => rfl
  have h1 : listStartsWith id ("http://".data) = false :=
    not_starts_of_bad_char id _ ':' (by decide) hv (by decide)
  have h2 : listStartsWith id ("https://".data) = false :=
    not_starts_of_bad_char id _ ':' (by decide) hv (by decide)
  simp only [normalizeL, watchBase, hstrip, hemp, h1, h2, Bool.or_self,
    Bool.false_eq_true, if_false]

theorem normalizeL_short (id : List Char) (_hne : id ≠ [])
    (hv : ∀ c ∈ id, isIdChar c = true) :
    normalizeL ("https://youtu.be/".data ++ id) = watchBase ++ id := by
  have hconc : ∀ c ∈ ("https://youtu.be/".data), isPyWs c = false := by decide
  have hstrip : pyStripL ("https://youtu.be/".data ++ id) = "https://youtu.be/".data ++ id := by
    apply pyStripL_all_not_ws
    intro c hc
    rcases List.mem_append.mp hc with h | h
    · exact hconc c h
    · exact idChar_not_ws c (hv c h)
  have hemp : ("https://youtu.be/".data ++ id).isEmpty = false := rfl
  have hs1 : listStartsWith ("https://youtu.be/".data ++ id) ("http://".data) = false := rfl
  have hs2 : listStartsWith ("https://youtu.be/".data ++ id) ("https://".data) = true := rfl
  have hnet : netlocOf ("https://youtu.be/".data ++ id) = "youtu.be".data := rfl
  have hafter : afterNetloc ("https://youtu.be/".data ++ id) = '/' :: id := rfl
  have hpath : pathOf ("https://youtu.be/".data ++ id) = '/' :: id := by
    unfold pathOf
    rw [hafter,
        takeWhile_all_pos _ ('/' :: id) ?hhash,
        takeWhile_all_pos _ ('/' :: id) ?hq]
    case hhash =>
      intro c hc
      rcases List.mem_cons.mp hc with rfl | hc
      · decide
      · rw [idChar_ne c '#' (hv c hc) (by decide)]; rfl
    case hq =>
      intro c hc
      rcases List.mem_cons.mp hc with rfl | hc
      · decide
      · rw [idChar_ne c '?' (hv c hc) (by decide)]; rfl
  have hdrop : ('/' :: id).dropWhile (fun c => c == '/') = id := by
    rw [List.dropWhile_cons]
    simp only [beq_self_eq_true, if_true]
    exact dropWhile_all_neg _ id fun c hc => idChar_ne c '/' (hv c hc) (by decide)
  simp only [normalizeL, hstrip, hemp, hs1, hs2, hnet, hpath, hdrop,
    Bool.false_eq_true, if_false, Bool.false_or, beq_self_eq_true, Bool.true_or,
    if_true]
  rfl

theorem normalizeL_canon (id : List Char) (hne : id ≠ [])
    (hv : ∀ c ∈ id, isIdChar c = true) :
    normalizeL (watchBase ++ id) = watchBase ++ id := by
  have hconc : ∀ c ∈ ("https://www.youtube.com/watch?v=".data), isPyWs c = false := by decide
  have hstrip : pyStripL (watchBase ++ id) = watchBase ++ id := by
    apply pyStripL_all_not_ws
    intro c hc
    rcases List.mem_append.mp hc with h | h
    · exact hconc c h
    · exact idChar_not_ws c (hv c h)
  have hemp : (watchBase ++ id).isEmpty = false := rfl
  have hs1 : listStartsWith (watchBase ++ id) ("http://".data) = false := rfl
  have hs2 : listStartsWith (watchBase ++ id) ("https://".data) = true := rfl
  have hnet : netlocOf (watchBase ++ id) = "www.youtube.com".data := rfl
  have hafter : afterNetloc (watchBase ++ id) = "/watch?v=".data ++ id := rfl
  have hpre : ∀ c ∈ ("/watch?v=".data), (!(c == '#')) = true := by decide
  have hquery : queryOf (watchBase ++ id) = 'v' :: '=' :: id := by
    unfold queryOf
    rw [hafter,
        takeWhile_append_all _ ("/watch?v=".data) id hpre,
        takeWhile_all_pos _ id ?hid]
    case hid =>
      intro c hc
      rw [idChar_ne c '#' (hv c hc) (by decide)]; rfl
    rfl
  have hqs := qsGetV_v_eq id hne hv
  have hvemp : id.isEmpty = false := by
    cases id with
    | nil => exact absurd rfl hne
    | cons c t => rfl
  have hcmp1 : (("www.youtube.com".data) == ("youtu.be".data)) = false := by decide
  have hcmp2 : (("www.youtube.com".data) == ("www.youtu.be".data)) = false := by decide
  have hcmp3 : (("www.youtube.com".data) == ("www.youtube.com".data)) = true := by decide
  simp only [normalizeL, hstrip, hemp, hs1, hs2, hnet, hquery, hqs, hvemp,
    hcmp1, hcmp2, hcmp3, Bool.false_eq_true, if_false, Bool.false_or, Bool.or_self,
    Bool.true_or, if_true]
  rfl

/-- An accepted bare video identifier: non-empty, all characters
alphanumeric, underscore or hyphen. -/
def ValidVideoId (s : String) : Prop :=
  s.data ≠ [] ∧ ∀ c ∈ s.data, isIdChar c = true

theorem string_append_data (a b : String) : (a ++ b).data = a.data ++ b.data := by
  cases a; cases b; rfl

theorem append_as_mk (lit : String) (a : String) :
    lit ++ a = String.mk (lit.data ++ a.data) := by
  cases a; rfl

/-- C8: for every accepted video-reference form (bare identifier,
short-link form, canonical-host form) normalization is idempotent, and the
three equivalent forms of one identifier all normalize to the same
canonical watch url. -/
theorem normalize_idempotent_equiv (id : String) (h : ValidVideoId id) :
    normalize_video_url id = "https://www.youtube.com/watch?v=" ++ id
    ∧ normalize_video_url ("https://youtu.be/" ++ id)
        = "https://www.youtube.com/watch?v=" ++ id
    ∧ normalize_video_url ("https://www.youtube.com/watch?v=" ++ id)
        = "https://www.youtube.com/watch?v=" ++ id
    ∧ normalize_video_url (normalize_video_url id) = normalize_video_url id
    ∧ normalize_video_url (normalize_video_url ("https://youtu.be/" ++ id))
        = normalize_video_url ("https://youtu.be/" ++ id)
    ∧ normalize_video_url (normalize_video_url ("https://www.youtube.com/watch?v=" ++ id))
        = normalize_video_url ("https://www.youtube.com/watch?v=" ++ id) := by
  obtain ⟨hne, hv⟩ := h
  have k1 : normalize_video_url id = "https://www.youtube.com/watch?v=" ++ id := by
    rw [append_as_mk]
    exact congrArg String.mk (normalizeL_bare id.data hne hv)
  have k2 : normalize_video_url ("https://youtu.be/" ++ id)
      = "https://www.youtube.com/watch?v=" ++ id := by
    rw [append_as_mk ("https://youtu.be/") id, append_as_mk ("https://www.youtube.com/watch?v=") id]
    exact congrArg String.mk (normalizeL_short id.data hne hv)
  have k3 : normalize_video_url ("https://www.youtube.com/watch?v=" ++ id)
      = "https://www.youtube.com/watch?v=" ++ id := by
    rw [append_as_mk ("https://www.youtube.com/watch?v=") id]
    exact congrArg String.mk (normalizeL_canon id.data hne hv)
  refine ⟨k1, k2, k3, ?_, ?_, ?_⟩
  · rw [k1]; exact k3
  · rw [k2]; exact k3
  · rw [k3]; exact k3

/-- Witness for C8 at the identifier the spec itself uses. -/
theorem normalize_idempotent_equiv_witness :
    ValidVideoId ("dQw4w9WgXcQ")
    ∧ (normalize_video_url ("dQw4w9WgXcQ")
          = "https://www.youtube.com/watch?v=" ++ "dQw4w9WgXcQ"
       ∧ normalize_video_url ("https://youtu.be/" ++ "dQw4w9WgXcQ")
          = "https://www.youtube.com/watch?v=" ++ "dQw4w9WgXcQ"
       ∧ normalize_video_url ("https://www.youtube.com/watch?v=" ++ "dQw4w9WgXcQ")
          = "https://www.youtube.com/watch?v=" ++ "dQw4w9WgXcQ"
       ∧ normalize_video_url (normalize_video_url ("dQw4w9WgXcQ"))
          = normalize_video_url ("dQw4w9WgXcQ")
       ∧ normalize_video_url (normalize_video_url ("https://youtu.be/" ++ "dQw4w9WgXcQ"))
          = normalize_video_url ("https://youtu.be/" ++ "dQw4w9WgXcQ")
       ∧ normalize_video_url
            (normalize_video_url ("https://www.youtube.com/watch?v=" ++ "dQw4w9WgXcQ"))
          = normalize_video_url ("https://www.youtube.com/watch?v=" ++ "dQw4w9WgXcQ")) :=
  ⟨⟨by decide, by decide⟩, normalize_idempotent_equiv ("dQw4w9WgXcQ") ⟨by decide, by decide⟩⟩

/-! ## Edge-character lemmas for python strip -/

theorem dropWhile_head_false (p : Char → Bool) :
    ∀ (l : List Char) (c : Char) (t : List Char),
      l.dropWhile p = c :: t → p c = false := by
  intro l
  induction l with
  | nil => intro c t h; cases h
  | cons x xs ih =>
    intro c t h
    rw [List.dropWhile_cons] at h
    rcases Bool.eq_false_or_eq_true (p x) with hx | hx
    · simp only [hx, if_true] at h
      exact ih c t h
    · simp only [hx, Bool.false_eq_true, if_false, List.cons.injEq] at h
      obtain ⟨rfl, -⟩ := h
      exact hx

theorem dropWhile_getLast? (p : Char → Bool) :
    ∀ (l : List Char), l.dropWhile p ≠ [] →
      (l.dropWhile p).getLast? = l.getLast? := by
  intro l
  induction l with
  | nil => intro h; exact absurd rfl h
  | cons x xs ih =>
    intro hne
    rw [List.dropWhile_cons] at hne ⊢
    rcases Bool.eq_false_or_eq_true (p x) with hx | hx
    · simp only [hx, if_true] at hne ⊢
      have hxs : xs.dropWhile p ≠ [] := hne
      rw [ih hxs]
      have hxsne : xs ≠ [] := by
        intro h
        rw [h] at hxs
        exact hxs rfl
      cases xs with
      | nil => exact absurd rfl hxsne
      | cons y ys => rw [List.getLast?_cons_cons]
    · simp only [hx, Bool.false_eq_true, if_false]

theorem pyStripL_idem (l : List Char) : pyStripL (pyStripL l) = pyStripL l := by
  unfold pyStripL
  set A := l.dropWhile isPyWs with hA
  set B := A.reverse.dropWhile isPyWs with hB
  have hBdrop : B.dropWhile isPyWs = B := by
    cases hBe : B with
    | nil => rfl
    | cons c t =>
      rw [List.dropWhile_cons, dropWhile_head_false isPyWs A.reverse c t (hB ▸ hBe)]
      simp
  have hmdrop : B.reverse.dropWhile isPyWs = B.reverse := by
    cases hm : B.reverse with
    | nil => rfl
    | cons c t =>
      have hBne : B ≠ [] := by
        intro h
        rw [h] at hm
        cases hm
      have hAne : A ≠ [] := by
        intro h
        apply hBne
        rw [hB, h]
        rfl
      have hchain : A.head? = some c := by
        have e1 : B.reverse.head? = some c := by rw [hm]; rfl
        rw [List.head?_reverse] at e1
        rw [hB] at e1
        rw [dropWhile_getLast? isPyWs A.reverse (hB ▸ hBne)] at e1
        rw [List.getLast?_reverse] at e1
        exact e1
      have hpc : isPyWs c = false := by
        cases hAe : A with
        | nil => exact absurd hAe hAne
        | cons d ds =>
          rw [hAe] at hchain
          injection hchain with hd
          rw [← hd]
          exact dropWhile_head_false isPyWs l d ds (hA ▸ hAe)
      rw [List.dropWhile_cons, hpc]
      simp
  rw [hmdrop, List.reverse_reverse, hBdrop]

theorem pyStrip_idem (s : String) : pyStrip (pyStrip s) = pyStrip s :=
  congrArg String.mk (pyStripL_idem s.data)

/-- Of two suffixes of one list, the shorter is a suffix of the longer. -/
theorem endsWith_mono (l s1 s2 : List Char) (h1 : listEndsWith l s1 = true)
    (h2 : listEndsWith l s2 = true) (hlen : s1.length ≤ s2.length) :
    listEndsWith s2 s1 = true := by
  unfold listEndsWith at h1 h2 ⊢
  obtain ⟨t1, he1⟩ := (listStartsWith_iff_append _ _).mp h1
  obtain ⟨t2, he2⟩ := (listStartsWith_iff_append _ _).mp h2
  rw [listStartsWith_iff_append]
  have hp1 : s1.reverse <+: l.reverse := ⟨t1, he1.symm⟩
  have hp2 : s2.reverse <+: l.reverse := ⟨t2, he2.symm⟩
  have hl : s1.reverse.length ≤ s2.reverse.length := by simpa using hlen
  obtain ⟨u, hu⟩ := List.prefix_of_prefix_length_le hp1 hp2 hl
  exact ⟨u, hu.symm⟩

/-! ## Prompt Composer claims -/

theorem effective_template_eq (f p q : Option String) :
    effective_template f p q = pyStrip (resolve_base_prompt f p q) := by
  by_cases h : pyStrip (resolve_base_prompt f p q) = SHARED_VIDEO_PROMPT
  · simp [effective_template, h]
  · simp [effective_template, h]

theorem composed_starts (t : String) (meta : VideoMeta) :
    pyStartsWith (render_prompt t meta) t = true := by
  unfold pyStartsWith render_prompt
  rw [string_append_data, string_append_data, List.append_assoc]
  exact listStartsWith_append _ _

/-- C1 counterexample: with a non-empty inline prompt override A, a
prompt-file whose content is B and a preset prompt C all supplied, the
composed prompt starts with the file content B, not with the inline
override A: the file option, not the inline option, has the highest
precedence in the code. -/
theorem prompt_precedence_cex :
    pyStartsWith (composed_prompt (some ("B")) (some ("A")) (some ("C")) {}) ("A") = false
    ∧ pyStartsWith (composed_prompt (some ("B")) (some ("A")) (some ("C")) {}) ("B") = true := by
  exact ⟨by decide, by decide⟩

/-- C1 (amended): the effective prompt template is resolved with the
prompt-file content winning over the inline prompt text, which wins over a
preset prompt, which wins over the hardcoded default; for every
combination of non-empty sources the composed prompt starts with the
trimmed content of the highest-precedence source. -/
theorem prompt_precedence_amended (b a c : String) (meta : VideoMeta)
    (ha : a ≠ "") (hc : c ≠ "") :
    pyStartsWith (composed_prompt (some b) (some a) (some c) meta) (pyStrip b) = true
    ∧ pyStartsWith (composed_prompt none (some a) (some c) meta) (pyStrip a) = true
    ∧ pyStartsWith (composed_prompt none none (some c) meta) (pyStrip c) = true
    ∧ pyStartsWith (composed_prompt none none none meta) DEFAULT_PROMPT = true := by
  refine ⟨?_, ?_, ?_, ?_⟩
  · unfold composed_prompt
    rw [effective_template_eq]
    exact composed_starts _ meta
  · unfold composed_prompt
    rw [effective_template_eq]
    have hsel : resolve_base_prompt none (some a) (some c) = a := if_neg ha
    rw [hsel]
    exact composed_starts _ meta
  · unfold composed_prompt
    rw [effective_template_eq]
    have hsel : resolve_base_prompt none none (some c) = c := if_neg hc
    rw [hsel]
    exact composed_starts _ meta
  · unfold composed_prompt
    rw [effective_template_eq]
    have hsel : resolve_base_prompt none none none = DEFAULT_PROMPT := rfl
    rw [hsel, show pyStrip DEFAULT_PROMPT = DEFAULT_PROMPT from by decide]
    exact composed_starts _ meta

/-- Witness for the amended C1 at concrete sources. -/
theorem prompt_precedence_amended_witness :
    ("A" : String) ≠ "" ∧ ("C" : String) ≠ ""
    ∧ (pyStartsWith (composed_prompt (some ("B")) (some ("A")) (some ("C")) {}) (pyStrip ("B")) = true
       ∧ pyStartsWith (composed_prompt none (some ("A")) (some ("C")) {}) (pyStrip ("A")) = true
       ∧ pyStartsWith (composed_prompt none none (some ("C")) {}) (pyStrip ("C")) = true
       ∧ pyStartsWith (composed_prompt none none none {}) DEFAULT_PROMPT = true) :=
  ⟨by decide, by decide,
   prompt_precedence_amended ("B") ("A") ("C") {} (by decide) (by decide)⟩

theorem render_prompt_ends (t : String) (meta : VideoMeta) :
    pyEndsWith (render_prompt t meta) genericClosing = true := by
  unfold render_prompt pyEndsWith
  rw [string_append_data]
  exact listEndsWith_append _ _

/-- C2 counterexample: a prompt-file whose content is exactly the shared
strict template makes the trimmed effective template equal to the trimmed
shared template, yet the composed prompt does not end with the strict
extraction block; it ends with the generic schema-conformance block. -/
theorem strict_template_cex :
    pyStrip (effective_template (some SHARED_VIDEO_PROMPT) none none)
        = pyStrip SHARED_VIDEO_PROMPT
    ∧ pyEndsWith (composed_prompt (some SHARED_VIDEO_PROMPT) none none {}) strictClosing = false
    ∧ pyEndsWith (composed_prompt (some SHARED_VIDEO_PROMPT) none none {}) genericClosing = true := by
  refine ⟨?_, ?_, ?_⟩
  · rw [effective_template_eq]
    exact pyStrip_idem SHARED_VIDEO_PROMPT
  · rcases Bool.eq_false_or_eq_true
        (pyEndsWith (composed_prompt (some SHARED_VIDEO_PROMPT) none none {}) strictClosing)
      with hb | hb
    swap
    · exact hb
    · exfalso
      have hgen := render_prompt_ends
        (effective_template (some SHARED_VIDEO_PROMPT) none none) {}
      have hmono := endsWith_mono
        (composed_prompt (some SHARED_VIDEO_PROMPT) none none {}).data
        genericClosing.data strictClosing.data hgen hb (by decide)
      have hfalse : listEndsWith strictClosing.data genericClosing.data = false := by decide
      rw [hmono] at hfalse
      cases hfalse
  · exact render_prompt_ends _ {}

/-- C2 (amended): the resolved template is stripped and compared against
the unstripped shared template (a comparison that never selects the strict
path), and the composed prompt always ends with the generic metadata block
requesting schema-conformant JSON, for every source combination. -/
theorem composed_ends_generic (f p q : Option String) (meta : VideoMeta) :
    pyEndsWith (composed_prompt f p q meta) genericClosing = true := by
  unfold composed_prompt
  exact render_prompt_ends _ meta

/-! ## Schema Resolver claim -/

/-- C3: when both an inline schema and a schema file are supplied the
inline schema is used, and when neither is supplied and no preset resolves
the hardcoded fallback schema (required string summary, required
string-array keyword) is used. -/
theorem schema_precedence (v f : JsonVal) (p : Option JsonVal) :
    (resolve_schema (some v) (some f) p).1 = v
    ∧ (resolve_schema none none none).1 = FALLBACK_SCHEMA :=
  ⟨rfl, rfl⟩

/-! ## Model Gateway claims -/

theorem geminiGo_all_fail {E A : Type} (f : Nat → E) :
    ∀ (n attempt : Nat) (lastErr : Option E),
      geminiGo (A := A) (fun k => Except.error (f k)) (n + 1) attempt lastErr
        = (.failed (some (f (attempt + n))), n + 1) := by
  intro n
  induction n with
  | zero => intro attempt lastErr; rfl
  | succ m ih =>
    intro attempt lastErr
    have step := ih (attempt + 1) (some (f attempt))
    show (let p := geminiGo (A := A) (fun k => Except.error (f k)) (m + 1)
            (attempt + 1) (some (f attempt));
          (p.1, p.2 + 1))
        = (.failed (some (f (attempt + (m + 1)))), m + 1 + 1)
    rw [step]
    have harith : attempt + 1 + m = attempt + (m + 1) := by omega
    rw [harith]

theorem geminiGo_succeeds {E A : Type} (call : Nat → Except E A) (a : A) :
    ∀ (N attempt r : Nat) (lastErr : Option E),
      N < r →
      (∀ k, k < N → ∃ e, call (attempt + k) = Except.error e) →
      call (attempt + N) = Except.ok a →
      geminiGo call r attempt lastErr = (.ok a, N + 1) := by
  intro N
  induction N with
  | zero =>
    intro attempt r lastErr hr _ hsucc
    rw [Nat.add_zero] at hsucc
    cases r with
    | zero => cases hr
    | succ r2 =>
      show (match call attempt with
            | .ok a => ((.ok a : GeminiOutcome E A), 1)
            | .error e =>
              let p := geminiGo call r2 (attempt + 1) (some e)
              (p.1, p.2 + 1))
          = (.ok a, 1)
      rw [hsucc]
  | succ M ih =>
    intro attempt r lastErr hr hfail hsucc
    cases r with
    | zero => cases hr
    | succ r2 =>
      obtain ⟨e, he⟩ := hfail 0 (Nat.succ_pos M)
      rw [Nat.add_zero] at he
      show (match call attempt with
            | .ok a => ((.ok a : GeminiOutcome E A), 1)
            | .error e =>
              let p := geminiGo call r2 (attempt + 1) (some e)
              (p.1, p.2 + 1))
          = (.ok a, M + 1 + 1)
      rw [he]
      show (let p := geminiGo call r2 (attempt + 1) (some e); (p.1, p.2 + 1))
          = ((.ok a : GeminiOutcome E A), M + 1 + 1)
      have hstep := ih (attempt + 1) r2 (some e) (by omega)
        (fun k hk => by
          obtain ⟨e2, he2⟩ := hfail (k + 1) (by omega)
          refine ⟨e2, ?_⟩
          rw [show attempt + 1 + k = attempt + (k + 1) from by omega]
          exact he2)
        (by
          rw [show attempt + 1 + M = attempt + (M + 1) from by omega]
          exact hsucc)
      rw [hstep]

/-- C4: a gateway whose underlying call always fails makes exactly
max_retries attempts (default 6) and then raises the terminal error
wrapping the last underlying error; a call that fails N times and then
succeeds (N below the retry cap) returns the success value after N + 1
attempts. -/
theorem gemini_retry_behaviour {E A : Type} (f : Nat → E) (call2 : Nat → Except E A)
    (a : A) (N maxR1 maxR2 : Nat) (h1 : 0 < maxR1) (hN : N < maxR2)
    (hfail : ∀ k, k < N → call2 k = Except.error (f k))
    (hsucc : call2 N = Except.ok a) :
    gemini_json_run (A := A) (fun k => Except.error (f k)) maxR1
        = (.failed (some (f (maxR1 - 1))), maxR1)
    ∧ gemini_json_run call2 maxR2 = (.ok a, N + 1)
    ∧ MAX_RETRIES_DEFAULT = 6 := by
  refine ⟨?_, ?_, rfl⟩
  · cases maxR1 with
    | zero => cases h1
    | succ n =>
      unfold gemini_json_run
      rw [geminiGo_all_fail f n 0 none]
      simp
  · unfold gemini_json_run
    exact geminiGo_succeeds call2 a N 0 maxR2 none hN
      (fun k hk => ⟨f k, by rw [Nat.zero_add]; exact hfail k hk⟩)
      (by rw [Nat.zero_add]; exact hsucc)

/-- Witness for C4: an always-failing stub exhausts the default six
attempts; a stub failing twice then succeeding returns the value after
three attempts. -/
theorem gemini_retry_behaviour_witness :
    gemini_json_run (fun k => (Except.error k : Except Nat Nat)) 6
        = (.failed (some 5), 6)
    ∧ gemini_json_run (fun k => if k < 2 then Except.error k else Except.ok 7) 6
        = (.ok 7, 3)
    ∧ MAX_RETRIES_DEFAULT = 6 :=
  gemini_retry_behaviour (fun k => k)
    (fun k => if k < 2 then Except.error k else Except.ok 7) 7 2 6 6
    (by decide) (by decide)
    (fun k hk => by
      have hcase : k = 0 ∨ k = 1 := by omega
      rcases hcase with rfl | rfl <;> rfl)
    rfl

/-- C5: the inter-attempt delay equals min(cap, base * 2 ^ attempt) scaled
by the jitter factor 0.7 + 0.6 * u with u uniform in the unit interval, so
it lies between 0.7 and 1.3 times the capped exponential and never exceeds
1.3 times the cap. -/
theorem backoff_delay_bounds (attempt : Nat) (base cap u : ℚ)
    (hb : 0 ≤ base) (hc : 0 ≤ cap) (h0 : 0 ≤ u) (h1 : u < 1) :
    (7 / 10) * min cap (base * 2 ^ attempt) ≤ backoff_delay attempt base cap u
    ∧ backoff_delay attempt base cap u ≤ (13 / 10) * min cap (base * 2 ^ attempt)
    ∧ backoff_delay attempt base cap u ≤ (13 / 10) * cap := by
  have hm0 : (0 : ℚ) ≤ min cap (base * 2 ^ attempt) := by positivity
  have hmc : min cap (base * 2 ^ attempt) ≤ cap := min_le_left _ _
  unfold backoff_delay
  refine ⟨?_, ?_, ?_⟩
  · nlinarith
  · nlinarith
  · nlinarith

/-- Witness for C5 at the defaults with attempt 2 and median jitter. -/
theorem backoff_delay_bounds_witness :
    (7 / 10) * min 20 ((1 : ℚ) * 2 ^ 2) ≤ backoff_delay 2 1 20 (1 / 2)
    ∧ backoff_delay 2 1 20 (1 / 2) ≤ (13 / 10) * min 20 ((1 : ℚ) * 2 ^ 2)
    ∧ backoff_delay 2 1 20 (1 / 2) ≤ (13 / 10) * 20 :=
  backoff_delay_bounds 2 1 20 (1 / 2) (by norm_num) (by norm_num)
    (by norm_num) (by norm_num)

/-! ## Batch Orchestrator claims -/

/-- C6: in batch mode with a single-file sink (a non-stdout out path and no
outdir), the run performs exactly one model call and writes exactly one
output file, whatever the length of the input list. -/
theorem batch_single_sink (gw : String → String) (a : CliArgs)
    (hdir : a.outdir = none) (hout : a.out ≠ "-")
    (hn : 1 < (load_inputs a).length) :
    gw_calls (main_run gw a) = 1 ∧ files_written (main_run gw a) = 1 := by
  obtain ⟨x, rest, hload⟩ : ∃ x rest, load_inputs a = x :: rest := by
    cases h : load_inputs a with
    | nil => rw [h] at hn; simp at hn
    | cons x t => exact ⟨x, t, rfl⟩
  have hrun : main_run gw a
      = .done [Event.gwCall (normalize_video_url x),
               Event.fileWrite a.out (gw (normalize_video_url x))] := by
    unfold main_run
    rw [hload]
    simp only [List.isEmpty_cons, Bool.false_eq_true, if_false]
    have hdec : decide (a.out = "-") = false := decide_eq_false hout
    simp only [hdec, Bool.and_false, Bool.false_eq_true, if_false]
    simp only [batch_events, hdir]
    rw [if_neg hout]
  rw [hrun]
  exact ⟨rfl, rfl⟩

/-- Witness for C6: three inputs, a named out file, no outdir. -/
theorem batch_single_sink_witness :
    (({ input_file := some [("a"), ("b"), ("c")], out := ("result.json") } : CliArgs)).outdir = none
    ∧ (({ input_file := some [("a"), ("b"), ("c")], out := ("result.json") } : CliArgs)).out ≠ "-"
    ∧ 1 < (load_inputs ({ input_file := some [("a"), ("b"), ("c")], out := ("result.json") } : CliArgs)).length
    ∧ (gw_calls (main_run (fun u => u)
          ({ input_file := some [("a"), ("b"), ("c")], out := ("result.json") } : CliArgs)) = 1
       ∧ files_written (main_run (fun u => u)
          ({ input_file := some [("a"), ("b"), ("c")], out := ("result.json") } : CliArgs)) = 1) :=
  ⟨rfl, by decide, by decide,
   batch_single_sink (fun u => u) _ rfl (by decide) (by decide)⟩

/-- C7: a file-sourced run with the stdout sentinel and no outdir exits
before any model call, and a run whose input list resolves to nothing exits
with an error before any model call. -/
theorem batch_fail_fast (gw gw2 : String → String) (a b : CliArgs)
    (lines : List String) (hin : a.input_file = some lines)
    (hdir : a.outdir = none) (hout : a.out = "-")
    (hb : load_inputs b = []) :
    (∃ m, main_run gw a = .exit m) ∧ gw_calls (main_run gw a) = 0
    ∧ main_run gw2 b = .exit ("Provide a video URL/ID or --input-file.")
    ∧ gw_calls (main_run gw2 b) = 0 := by
  have hexit : ∃ m, main_run gw a = .exit m := by
    simp only [main_run]
    cases hie : (load_inputs a).isEmpty with
    | true =>
      exact ⟨("Provide a video URL/ID or --input-file."), rfl⟩
    | false =>
      refine ⟨("Batch mode requires --outdir to write results per video."), ?_⟩
      simp only [Bool.false_eq_true, if_false]
      rw [hin, hdir, hout]
      rfl
  obtain ⟨m, hm⟩ := hexit
  have hbrun : main_run gw2 b = .exit ("Provide a video URL/ID or --input-file.") := by
    unfold main_run
    rw [hb]
    rfl
  exact ⟨⟨m, hm⟩, by rw [hm]; rfl, hbrun, by rw [hbrun]; rfl⟩

/-- Witness for C7: a batch run printing to stdout and a run with no input. -/
theorem batch_fail_fast_witness :
    (({ input_file := some [("x")] } : CliArgs)).input_file = some [("x")]
    ∧ (({ input_file := some [("x")] } : CliArgs)).outdir = none
    ∧ (({ input_file := some [("x")] } : CliArgs)).out = "-"
    ∧ load_inputs ({} : CliArgs) = []
    ∧ ((∃ m, main_run (fun u => u) ({ input_file := some [("x")] } : CliArgs) = .exit m)
       ∧ gw_calls (main_run (fun u => u) ({ input_file := some [("x")] } : CliArgs)) = 0
       ∧ main_run (fun u => u) ({} : CliArgs)
           = .exit ("Provide a video URL/ID or --input-file.")
       ∧ gw_calls (main_run (fun u => u) ({} : CliArgs)) = 0) :=
  ⟨rfl, rfl, rfl, rfl,
   batch_fail_fast (fun u => u) (fun u => u) _ _ [("x")] rfl rfl rfl rfl⟩

/-! ## Web endpoint claims -/

/-- C9 counterexample: with an object schema and a resolvable video
reference, a gateway that raises makes the handler itself raise (the
gateway call sits outside the try block), so the caller sees an unhandled
exception (the framework's 500), not a structured 502 response. -/
theorem summarize_api_cex :
    summarize_api (fun _ => none) (Except.error ("boom"))
        ({ video_input := ("dQw4w9WgXcQ"), schema := some (.obj []) })
      = ⟨.unhandled ("boom"), 1⟩
    ∧ isStructuredResp (summarize_api (fun _ => none) (Except.error ("boom"))
        ({ video_input := ("dQw4w9WgXcQ"), schema := some (.obj []) })).result
      = false := by
  exact ⟨rfl, rfl⟩

/-- C9 (amended): the endpoint returns the parsed JSON on success, a 400
error object without any model call for a non-object schema or an
unresolvable video reference, and a 502 error object carrying the raw text
when the model returns invalid JSON; an upstream gateway failure is not
caught and escapes the handler instead of producing the structured 502. -/
theorem summarize_api_behaviour (jl : String → Option JsonVal)
    (gwraw rawBad err vin vgood m s : String) (v : JsonVal)
    (fields : List (String × JsonVal))
    (hvin : pyStrip vin = "")
    (hgood : normalize_video_url (pyStrip vgood) ≠ "")
    (hparse : jl gwraw = some v) (hnoparse : jl rawBad = none) :
    summarize_api jl (Except.ok gwraw)
        ({ video_input := vin, prompt := m, schema := some (.str s) })
      = ⟨.resp 400 (.obj [("error", .str "schema must be a JSON object")]), 0⟩
    ∧ summarize_api jl (Except.ok gwraw)
        ({ video_input := vin, prompt := m, schema := some (.obj fields) })
      = ⟨.resp 400 (.obj [("error", .str "Provide a YouTube URL or video id.")]), 0⟩
    ∧ summarize_api jl (Except.ok gwraw)
        ({ video_input := vgood, prompt := m, schema := some (.obj fields) })
      = ⟨.resp 200 v, 1⟩
    ∧ summarize_api jl (Except.ok rawBad)
        ({ video_input := vgood, prompt := m, schema := some (.obj fields) })
      = ⟨.resp 502 (.obj [("error", .str "Model returned invalid JSON"),
                          ("raw", .str rawBad)]), 1⟩
    ∧ summarize_api jl (Except.error err)
        ({ video_input := vgood, prompt := m, schema := some (.obj fields) })
      = ⟨.unhandled err, 1⟩ := by
  have hnorm0 : normalize_video_url (pyStrip vin) = "" := by
    rw [hvin]
    rfl
  refine ⟨rfl, ?_, ?_, ?_, ?_⟩
  · simp only [summarize_api, hnorm0, isJsonObj, Option.getD_some, Bool.not_true,
      Bool.false_eq_true, if_false, if_true]
  · simp only [summarize_api, isJsonObj, Option.getD_some, Bool.not_true,
      Bool.false_eq_true, if_false, if_neg hgood, hparse]
  · simp only [summarize_api, isJsonObj, Option.getD_some, Bool.not_true,
      Bool.false_eq_true, if_false, if_neg hgood, hnoparse]
  · simp only [summarize_api, isJsonObj, Option.getD_some, Bool.not_true,
      Bool.false_eq_true, if_false, if_neg hgood]

/-- Witness for the amended C9 at concrete inputs. -/
theorem summarize_api_behaviour_witness :
    pyStrip ("") = ""
    ∧ normalize_video_url (pyStrip ("abc")) ≠ ""
    ∧ (fun r => if r = ("ok") then some (JsonVal.obj []) else none) ("ok")
        = some (JsonVal.obj [])
    ∧ (fun r => if r = ("ok") then some (JsonVal.obj []) else none) ("bad") = none
    ∧ (summarize_api (fun r => if r = ("ok") then some (JsonVal.obj []) else none)
          (Except.ok ("ok"))
          ({ video_input := (""), prompt := ("p"), schema := some (.str ("x")) })
        = ⟨.resp 400 (.obj [("error", .str "schema must be a JSON object")]), 0⟩
       ∧ summarize_api (fun r => if r = ("ok") then some (JsonVal.obj []) else none)
          (Except.ok ("ok"))
          ({ video_input := (""), prompt := ("p"), schema := some (.obj []) })
        = ⟨.resp 400 (.obj [("error", .str "Provide a YouTube URL or video id.")]), 0⟩
       ∧ summarize_api (fun r => if r = ("ok") then some (JsonVal.obj []) else none)
          (Except.ok ("ok"))
          ({ video_input := ("abc"), prompt := ("p"), schema := some (.obj []) })
        = ⟨.resp 200 (JsonVal.obj []), 1⟩
       ∧ summarize_api (fun r => if r = ("ok") then some (JsonVal.obj []) else none)
          (Except.ok ("bad"))
          ({ video_input := ("abc"), prompt := ("p"), schema := some (.obj []) })
        = ⟨.resp 502 (.obj [("error", .str "Model returned invalid JSON"),
                            ("raw", .str ("bad"))]), 1⟩
       ∧ summarize_api (fun r => if r = ("ok") then some (JsonVal.obj []) else none)
          (Except.error ("down"))
          ({ video_input := ("abc"), prompt := ("p"), schema := some (.obj []) })
        = ⟨.unhandled ("down"), 1⟩) :=
  ⟨rfl, by decide, rfl, rfl,
   summarize_api_behaviour (fun r => if r = ("ok") then some (JsonVal.obj []) else none)
     ("ok") ("bad") ("down") ("") ("abc") ("p") ("x") (JsonVal.obj []) []
     rfl (by decide) rfl rfl⟩

/-! ## Preset round-trip claim -/

/-- C10: saving a preset named My Preset! stores it under the sanitized
identifier my_preset, and loading that identifier through the preset
endpoint returns exactly the name, prompt and schema that were saved. -/
theorem preset_roundtrip (store : PresetStore) (promptText : String)
    (schemaFields : List (String × JsonVal)) :
    (presets_save store ("My Preset!") (some (.str promptText))
        (some (.obj schemaFields))).response
      = .resp 200 (.obj [("id", .str ("my_preset")), ("name", .str ("My Preset!"))])
    ∧ presets_get (presets_save store ("My Preset!") (some (.str promptText))
        (some (.obj schemaFields))).store ("my_preset")
      = .resp 200 (.obj [("name", .str ("My Preset!")), ("prompt", .str promptText),
                         ("schema", .obj schemaFields)]) := by
  exact ⟨rfl, rfl⟩
